import Mathlib

/-!
Verification of the authorization core of the online-judge repository:
problem visibility/editability, editorial (solution) visibility, and the
tri-state problem-voting permission, as exercised by
`src/judge/models/tests/test_problem.py`.

The policy implementation (`judge/models/problem.py`) is not part of the
excerpt; the definitions below are modelled from the specification, with the
repository's own test suite taken as the authority wherever an assertion of
`test_problem.py` pins concrete behavior.
-/

namespace OnlineJudge

/-- Modelled from the spec: §4.2 StaffPermissionSet — the named global
capability flags resolved for a user (`judge.edit_all_problem`,
`judge.edit_own_problem`, `judge.see_private_problem`,
`judge.see_organization_private_problem`, `judge.rejudge_submission`,
`judge.see_private_solution`).  The tests additionally exercise a
public-problem editing capability (the user fixture
`staff_problem_edit_public`, `judge.edit_public_problem`), which the spec
omits from its list; it is included here because the test assertions on
`is_editable_by` are not satisfiable without it (see
`spec_editable_rule_constant_without_role` below). -/
inductive Capability
  | edit_all
  | edit_own
  | edit_public
  | see_all
  | see_organization
  | rejudge
  | see_private_solution
deriving DecidableEq, Repr

/-- Modelled from the spec: §3 User/Profile — the profile data consumed by
the policies.  `current_contest` is the nullable reference to an active
contest participation (the tests set it directly; liveness of the
participation is folded into the reference being present). -/
structure Profile where
  id : Nat
  is_unlisted : Bool
  is_banned_from_problem_voting : Bool
  organizations : List Nat
  admin_of : List Nat
  current_contest : Option Nat
deriving DecidableEq, Repr

/-- Modelled from the spec: §3 User/Profile — identity with authentication
and superuser flags, granted capability set, and profile. -/
structure User where
  is_authenticated : Bool
  is_superuser : Bool
  perms : List Capability
  profile : Profile
deriving DecidableEq, Repr

/-- Modelled from the spec: §4.2 — capability lookup.  Superusers implicitly
hold every capability; anonymous users hold none. -/
def has_perm (u : User) (c : Capability) : Bool :=
  u.is_authenticated && (u.is_superuser || u.perms.contains c)

/-- Modelled from the spec: §3 Problem — code, full-score `points` (an exact
numeric value; submissions record the exact awarded value), visibility
flags, role sets, organization scope, and the per-problem voting ban set. -/
structure Problem where
  code : String
  points : Rat
  is_public : Bool
  is_organization_private : Bool
  authors : List Nat
  curators : List Nat
  testers : List Nat
  organizations : List Nat
  banned_users : List Nat
deriving DecidableEq, Repr

/-- Modelled from the spec: §4.1 RoleSet — the roles a user can hold against
a problem. -/
inductive Role
  | AUTHOR
  | CURATOR
  | TESTER
  | ORG_MEMBER
  | ORG_ADMIN
deriving DecidableEq, Repr

/-- Whether two id lists intersect (set intersection on relationship data). -/
def list_intersects (xs ys : List Nat) : Bool :=
  xs.any fun x => ys.contains x

/-- Modelled from the spec: §4.1 — the membership test behind each single
role. -/
def role_holds (u : User) (p : Problem) : Role → Bool
  | Role.AUTHOR => p.authors.contains u.profile.id
  | Role.CURATOR => p.curators.contains u.profile.id
  | Role.TESTER => p.testers.contains u.profile.id
  | Role.ORG_MEMBER => list_intersects u.profile.organizations p.organizations
  | Role.ORG_ADMIN => list_intersects u.profile.admin_of p.organizations

/-- Modelled from the spec: §4.1 RoleSet — `roles_of(user, problem)`;
anonymous users yield the empty set. -/
def roles_of (u : User) (p : Problem) : List Role :=
  if !u.is_authenticated then []
  else [Role.AUTHOR, Role.CURATOR, Role.TESTER, Role.ORG_MEMBER,
        Role.ORG_ADMIN].filter (role_holds u p)

/-- Boolean form of role membership used by the policy functions. -/
def has_role (u : User) (p : Problem) (r : Role) : Bool :=
  decide (r ∈ roles_of u p)

/-- Modelled from the spec: §4.3 `is_accessible_by` — true iff the user
holds `see_all`, or the problem is public and not organization-restricted
for this user, or the user is an organization member holding
`see_organization` on an organization-private problem, or the user holds an
AUTHOR/CURATOR/TESTER role. -/
def Problem.is_accessible_by (u : User) (p : Problem) : Bool :=
  has_perm u Capability.see_all
  || (p.is_public && (!p.is_organization_private || has_role u p Role.ORG_MEMBER))
  || (p.is_organization_private && has_role u p Role.ORG_MEMBER
      && has_perm u Capability.see_organization)
  || has_role u p Role.AUTHOR || has_role u p Role.CURATOR
  || has_role u p Role.TESTER

/-- Modelled from the spec: §4.3 `is_editable_by` — the implementation is
absent from the excerpt, and the spec's two clauses (`edit_all`, or
AUTHOR/CURATOR role together with `edit_own`) are inconsistent with the
repository's tests (`test_organization_private_problem_methods` and
`test_organization_admin_private_problem_methods` make the non-editor
fixture user `staff_problem_edit_public` editable on some problems but not
on others, which no clause of the spec can produce; see
`spec_editable_rule_constant_without_role`).  The definition therefore
carries the two further branches the test assertions force: holding
`edit_public` on a public problem, and holding `edit_own` while
administering one of an organization-private problem's organizations. -/
def Problem.is_editable_by (u : User) (p : Problem) : Bool :=
  has_perm u Capability.edit_all
  || (has_perm u Capability.edit_public && p.is_public)
  || (has_perm u Capability.edit_own
      && (has_role u p Role.AUTHOR || has_role u p Role.CURATOR
          || (p.is_organization_private && has_role u p Role.ORG_ADMIN)))

/-- Modelled from the spec: §4.3 `is_subs_manageable_by` — true iff the user
holds `edit_all`, or holds `rejudge` and can edit the problem. -/
def Problem.is_subs_manageable_by (u : User) (p : Problem) : Bool :=
  has_perm u Capability.edit_all
  || (has_perm u Capability.rejudge && Problem.is_editable_by u p)

/-- Modelled from the spec: §4.3 `get_visible_problems` — the bulk
(query-filter) form of problem visibility, written the way the storage layer
consumes it: a guard for the see-everything capability and otherwise a
row-filter over raw relationship data. -/
def Problem.get_visible_problems (ps : List Problem) (u : User) : List Problem :=
  if !u.is_authenticated then
    ps.filter fun p => p.is_public && !p.is_organization_private
  else if has_perm u Capability.see_all then ps
  else
    ps.filter fun p =>
      (p.is_public
        && (!p.is_organization_private
            || list_intersects u.profile.organizations p.organizations))
      || (has_perm u Capability.see_organization && p.is_organization_private
          && list_intersects u.profile.organizations p.organizations)
      || p.authors.contains u.profile.id
      || p.curators.contains u.profile.id
      || p.testers.contains u.profile.id

/-- Modelled from the spec: §4.3 `get_editable_problems` — the bulk
(query-filter) form of problem editability, mirroring
`Problem.is_editable_by` as a set-based query. -/
def Problem.get_editable_problems (ps : List Problem) (u : User) : List Problem :=
  if !u.is_authenticated then []
  else if has_perm u Capability.edit_all then ps
  else if !(has_perm u Capability.edit_own || has_perm u Capability.edit_public) then []
  else
    ps.filter fun p =>
      (has_perm u Capability.edit_public && p.is_public)
      || (has_perm u Capability.edit_own
          && (p.authors.contains u.profile.id
              || p.curators.contains u.profile.id
              || (p.is_organization_private
                  && list_intersects u.profile.admin_of p.organizations)))

/-- Modelled from the spec: §3 Solution (editorial) — references exactly one
problem, carries a public flag, a publish timestamp, and its own
author/curator sets. -/
structure Solution where
  problem : Problem
  is_public : Bool
  publish_on : Int
  authors : List Nat
  curators : List Nat
deriving DecidableEq, Repr

/-- Modelled from the spec: §4.4 `Solution.is_accessible_by` — true iff the
user holds `see_private_solution`, or holds an editor role (AUTHOR/CURATOR)
on the solution's problem, or the solution is public and the current time
`now` is at or past `publish_on`. -/
def Solution.is_accessible_by (now : Int) (u : User) (s : Solution) : Bool :=
  has_perm u Capability.see_private_solution
  || has_role u s.problem Role.AUTHOR || has_role u s.problem Role.CURATOR
  || (s.is_public && decide (s.publish_on ≤ now))

/-- Modelled from the spec: §4.5 — the tri-state vote permission. -/
inductive VotePermission
  | NONE
  | VIEW
  | VOTE
deriving DecidableEq, Repr

/-- Modelled from the spec: §3 Submission — user profile reference, problem
code, result code, and exact awarded points. -/
structure Submission where
  user : Nat
  problem : String
  result : String
  points : Rat
deriving DecidableEq, Repr

/-- Whether `subs` holds an accepted submission by profile `uid` for `p`. -/
def Problem.has_accepted (subs : List Submission) (p : Problem) (uid : Nat) : Bool :=
  subs.any fun s => s.user == uid && s.problem == p.code && s.result == "AC"

/-- Whether `subs` holds an accepted submission by profile `uid` for `p`
whose awarded points exactly equal the problem's full `points` value. -/
def Problem.has_full_ac (subs : List Submission) (p : Problem) (uid : Nat) : Bool :=
  subs.any fun s =>
    s.user == uid && s.problem == p.code && s.result == "AC"
      && s.points == p.points

/-- Modelled from the spec: §4.5 `vote_permission_for_user` — a decision
tree evaluated in order: anonymous → NONE; active contest participation →
NONE; unlisted, globally banned from problem voting, or listed in the
problem's `banned_users` → VIEW; no full-points accepted submission → VIEW;
otherwise VOTE.  The spec's tree differs in two places the repository's
tests contradict (`test_problem_voting_permissions`): the spec omits the
unlisted downgrade the tests assert (an unlisted user with a full-points
accepted submission receives VIEW), and the spec sends a user with no
accepted submission to NONE while the tests assert VIEW (the `normal`
fixture, authenticated, out of contest, with no submission, receives VIEW);
the tree below follows the tests. -/
def Problem.vote_permission_for_user (subs : List Submission) (p : Problem)
    (u : User) : VotePermission :=
  if !u.is_authenticated then VotePermission.NONE
  else if u.profile.current_contest.isSome then VotePermission.NONE
  else if u.profile.is_unlisted || u.profile.is_banned_from_problem_voting
      || p.banned_users.contains u.profile.id then VotePermission.VIEW
  else if Problem.has_full_ac subs p u.profile.id then VotePermission.VOTE
  else VotePermission.VIEW

/-! ### Concrete fixtures

Concrete users, problems, submissions and solutions in the shape of the
fixtures of `test_problem.py`, used to witness the theorems below. -/

/-- A profile with no flags, no organizations, and no active contest. -/
def plain_profile (uid : Nat) : Profile :=
  { id := uid, is_unlisted := false, is_banned_from_problem_voting := false,
    organizations := [], admin_of := [], current_contest := none }

/-- An ordinary authenticated user with no capabilities. -/
def plain_user (uid : Nat) : User :=
  { is_authenticated := true, is_superuser := false, perms := [],
    profile := plain_profile uid }

/-- The `normal` fixture: ordinary authenticated user, author of `basic`. -/
def normal_user : User := plain_user 1

/-- The anonymous user: unauthenticated, no capabilities. -/
def anonymous_user : User :=
  { is_authenticated := false, is_superuser := false, perms := [],
    profile := plain_profile 0 }

/-- The `basic` problem fixture: non-public, not organization-private,
authored by `normal` (profile 1), tested by profile 6, with profile 9 in its
per-problem voting ban set. -/
def basic_problem : Problem :=
  { code := "basic", points := 2, is_public := false,
    is_organization_private := false, authors := [1], curators := [],
    testers := [6], organizations := [], banned_users := [9] }

/-- The `in_contest` fixture: authenticated user with an active contest
participation. -/
def in_contest_user : User :=
  { plain_user 5 with profile := { plain_profile 5 with current_contest := some 1 } }

/-- The `unlisted` fixture: authenticated user whose profile is unlisted. -/
def unlisted_user : User :=
  { plain_user 2 with profile := { plain_profile 2 with is_unlisted := true } }

/-- The `banned_from_voting` fixture: globally banned from problem voting. -/
def banned_voting_user : User :=
  { plain_user 8 with
    profile := { plain_profile 8 with is_banned_from_problem_voting := true } }

/-- The `banned_from_problem` fixture: profile 9, listed in
`basic_problem.banned_users`. -/
def banned_from_problem_user : User := plain_user 9

/-- An accepted submission for `basic` by profile `uid` awarding `pts`. -/
def basic_ac (uid : Nat) (pts : Rat) : Submission :=
  { user := uid, problem := "basic", result := "AC", points := pts }

/-- The `staff_problem_edit_public` fixture: holds `edit_own` and
`edit_public`, administers organization 5, member of no organization. -/
def edit_public_user : User :=
  { is_authenticated := true, is_superuser := false,
    perms := [Capability.edit_own, Capability.edit_public],
    profile := { plain_profile 10 with admin_of := [5] } }

/-- The `org_admin_private` problem fixture: non-public,
organization-private, scoped to organization 5, with no role holders. -/
def org_admin_private_problem : Problem :=
  { code := "org_admin_private", points := 1, is_public := false,
    is_organization_private := true, authors := [], curators := [],
    testers := [], organizations := [5], banned_users := [] }

/-- The `organization_private` problem fixture: public,
organization-private, scoped to organization 3, curated by profile 7. -/
def organization_private_problem : Problem :=
  { code := "organization_private", points := 2, is_public := true,
    is_organization_private := true, authors := [], curators := [7],
    testers := [], organizations := [3], banned_users := [] }

/-- The `staff_problem_edit_own_no_staff` fixture: curator of
`organization_private` holding `edit_own` but neither `edit_all` nor
`rejudge`. -/
def curator_edit_own_user : User :=
  { plain_user 7 with perms := [Capability.edit_own] }

/-- A user listed among a solution's own authors (profile 4) who holds no
role on any problem and no capability. -/
def solution_author_user : User := plain_user 4

/-- The `unpublished_solution` fixture: non-public editorial for
`org_admin_private`, publishing at time 100, authored (as a solution) by
profile 4. -/
def unpublished_solution : Solution :=
  { problem := org_admin_private_problem, is_public := false,
    publish_on := 100, authors := [4], curators := [] }

/-! ### Helper lemmas -/

/-- Role membership unfolds to the authentication guard plus the single-role
membership test. -/
lemma mem_roles_iff (u : User) (p : Problem) (r : Role) :
    r ∈ roles_of u p ↔ (u.is_authenticated = true ∧ role_holds u p r = true) := by
  cases h : u.is_authenticated <;> cases r <;>
    simp [roles_of, h, List.mem_filter]

/-- Boolean form of `mem_roles_iff`. -/
lemma has_role_eq (u : User) (p : Problem) (r : Role) :
    has_role u p r = (u.is_authenticated && role_holds u p r) := by
  cases h : u.is_authenticated <;> cases r <;>
    simp [has_role, roles_of, h, List.mem_filter]

/-- A full-points accepted submission is in particular an accepted
submission. -/
lemma has_accepted_of_has_full_ac {subs : List Submission} {p : Problem}
    {uid : Nat} (h : Problem.has_full_ac subs p uid = true) :
    Problem.has_accepted subs p uid = true := by
  simp only [Problem.has_full_ac, Problem.has_accepted, List.any_eq_true,
    Bool.and_eq_true] at h ⊢
  obtain ⟨s, hs, ⟨⟨h1, h2⟩, h3⟩, h4⟩ := h
  exact ⟨s, hs, ⟨h1, h2⟩, h3⟩

/-! ### Voting-permission theorems -/

/-- C7: `vote_permission_for_user` returns NONE for every anonymous user,
and for every user with an active contest participation regardless of
submission history, ban state, or full-score accepted submissions: the
contest gate precedes every later rule of the decision tree. -/
theorem vote_anonymous_or_in_contest_none (subs : List Submission)
    (p : Problem) (u : User) :
    (u.is_authenticated = false →
      Problem.vote_permission_for_user subs p u = VotePermission.NONE) ∧
    (u.profile.current_contest.isSome = true →
      Problem.vote_permission_for_user subs p u = VotePermission.NONE) := by
  constructor
  · intro h
    simp [Problem.vote_permission_for_user, h]
  · intro h
    cases hauth : u.is_authenticated <;>
      simp [Problem.vote_permission_for_user, hauth, h]

/-- C7 witness: a user in a live contest holding a full-score accepted
submission still receives NONE. -/
theorem vote_anonymous_or_in_contest_none_witness :
    Problem.vote_permission_for_user [basic_ac 5 2] basic_problem in_contest_user
      = VotePermission.NONE :=
  (vote_anonymous_or_in_contest_none [basic_ac 5 2] basic_problem
    in_contest_user).2 (by decide)

/-- C2 counterexample: the claim that every authenticated user outside a
live contest with no accepted submission receives NONE is false: the
`normal` fixture (authenticated, no contest, no submission at all) receives
VIEW, exactly as `test_problem_voting_permissions` asserts. -/
theorem vote_unsolved_none_refuted :
    ¬ (∀ (subs : List Submission) (p : Problem) (u : User),
        u.is_authenticated = true → u.profile.current_contest = none →
        Problem.has_accepted subs p u.profile.id = false →
        Problem.vote_permission_for_user subs p u = VotePermission.NONE) := by
  intro h
  have := h [] basic_problem normal_user (by decide) (by decide) (by decide)
  simp [Problem.vote_permission_for_user, Problem.has_full_ac, normal_user,
    plain_user, plain_profile, basic_problem] at this

/-- C2 amended: every authenticated user outside a live contest with no
accepted submission for the problem receives VIEW (not NONE). -/
theorem vote_unsolved_view (subs : List Submission) (p : Problem) (u : User)
    (h1 : u.is_authenticated = true) (h2 : u.profile.current_contest = none)
    (h3 : Problem.has_accepted subs p u.profile.id = false) :
    Problem.vote_permission_for_user subs p u = VotePermission.VIEW := by
  have hfa : Problem.has_full_ac subs p u.profile.id = false := by
    cases hx : Problem.has_full_ac subs p u.profile.id
    · rfl
    · rw [has_accepted_of_has_full_ac hx] at h3
      exact absurd h3 (by simp)
  simp [Problem.vote_permission_for_user, h1, h2, hfa]

/-- C2 amended witness: the `normal` fixture with no submissions. -/
theorem vote_unsolved_view_witness :
    Problem.vote_permission_for_user [] basic_problem normal_user
      = VotePermission.VIEW :=
  vote_unsolved_view [] basic_problem normal_user (by decide) (by decide)
    (by decide)

/-- C5: an authenticated user outside a live contest holding an accepted
submission receives VIEW (never VOTE) whenever they are globally banned from
problem voting, or listed in the problem's `banned_users`, or every accepted
submission of theirs scores strictly less than the problem's full `points`
value; the full-points test in `Problem.has_full_ac` is exact equality of
the awarded points against the stored `points` field. -/
theorem vote_solved_banned_or_partial_view (subs : List Submission)
    (p : Problem) (u : User) (h1 : u.is_authenticated = true)
    (h2 : u.profile.current_contest = none)
    (h3 : Problem.has_accepted subs p u.profile.id = true)
    (h4 : u.profile.is_banned_from_problem_voting = true
      ∨ p.banned_users.contains u.profile.id = true
      ∨ ∀ s ∈ subs, s.user = u.profile.id → s.problem = p.code →
          s.result = "AC" → s.points < p.points) :
    Problem.vote_permission_for_user subs p u = VotePermission.VIEW := by
  rcases h4 with hb | hb | hb
  · simp [Problem.vote_permission_for_user, h1, h2, hb]
  · have hb2 : u.profile.id ∈ p.banned_users := by simpa using hb
    simp [Problem.vote_permission_for_user, h1, h2, hb2]
  · have hfa : Problem.has_full_ac subs p u.profile.id = false := by
      cases hx : Problem.has_full_ac subs p u.profile.id
      · rfl
      · exfalso
        simp only [Problem.has_full_ac, List.any_eq_true, Bool.and_eq_true,
          beq_iff_eq] at hx
        obtain ⟨s, hs, ⟨⟨e1, e2⟩, e3⟩, e4⟩ := hx
        exact absurd e4 (ne_of_lt (hb s hs e1 e2 e3))
    simp [Problem.vote_permission_for_user, h1, h2, hfa]

/-- C5 witness: a globally banned user holding a full-score accepted
submission receives VIEW. -/
theorem vote_solved_banned_or_partial_view_witness :
    Problem.vote_permission_for_user [basic_ac 8 2] basic_problem
      banned_voting_user = VotePermission.VIEW :=
  vote_solved_banned_or_partial_view [basic_ac 8 2] basic_problem
    banned_voting_user (by decide) (by decide) (by decide)
    (Or.inl (by decide))

/-- C6 counterexample: the claim that every authenticated user with a
full-points accepted submission, no ban of any kind, and no active contest
receives VOTE is false: the unlisted fixture user satisfies all of that yet
receives VIEW, exactly as `test_problem_voting_permissions` asserts. -/
theorem vote_full_ac_vote_refuted :
    ¬ (∀ (subs : List Submission) (p : Problem) (u : User),
        u.is_authenticated = true → u.profile.current_contest = none →
        u.profile.is_banned_from_problem_voting = false →
        p.banned_users.contains u.profile.id = false →
        Problem.has_full_ac subs p u.profile.id = true →
        Problem.vote_permission_for_user subs p u = VotePermission.VOTE) := by
  intro h
  have := h [basic_ac 2 2] basic_problem unlisted_user (by decide) (by decide)
    (by decide) (by decide) (by decide)
  exact absurd this (by decide)

/-- C6 amended: an authenticated, listed (not unlisted) user with a
full-points accepted submission, not banned globally nor per-problem, and
with no active contest participation receives VOTE. -/
theorem vote_full_ac_vote (subs : List Submission) (p : Problem) (u : User)
    (h1 : u.is_authenticated = true) (h2 : u.profile.current_contest = none)
    (h3 : u.profile.is_unlisted = false)
    (h4 : u.profile.is_banned_from_problem_voting = false)
    (h5 : p.banned_users.contains u.profile.id = false)
    (h6 : Problem.has_full_ac subs p u.profile.id = true) :
    Problem.vote_permission_for_user subs p u = VotePermission.VOTE := by
  have h52 : u.profile.id ∉ p.banned_users := by simpa using h5
  simp [Problem.vote_permission_for_user, h1, h2, h3, h4, h52, h6]

/-- C6 amended witness: the `normal` fixture after a full-score accepted
submission. -/
theorem vote_full_ac_vote_witness :
    Problem.vote_permission_for_user [basic_ac 1 2] basic_problem normal_user
      = VotePermission.VOTE :=
  vote_full_ac_vote [basic_ac 1 2] basic_problem normal_user (by decide)
    (by decide) (by decide) (by decide) (by decide) (by decide)

/-- C9: an unlisted profile never receives VOTE — the unlisted flag alone
downgrades the result to at most VIEW, regardless of submissions, bans, or
contest state. -/
theorem vote_unlisted_never_vote (subs : List Submission) (p : Problem)
    (u : User) (h : u.profile.is_unlisted = true) :
    Problem.vote_permission_for_user subs p u ≠ VotePermission.VOTE := by
  unfold Problem.vote_permission_for_user
  simp [h]
  split
  · simp
  · split <;> simp

/-- C9 witness: the unlisted fixture user with a full-score accepted
submission, no bans, and no contest does not receive VOTE. -/
theorem vote_unlisted_never_vote_witness :
    Problem.vote_permission_for_user [basic_ac 2 2] basic_problem unlisted_user
      ≠ VotePermission.VOTE :=
  vote_unlisted_never_vote [basic_ac 2 2] basic_problem unlisted_user
    (by decide)

/-! ### Problem-policy theorems -/

/-- On two problems where a user holds neither the AUTHOR nor the CURATOR
role, the spec's two-clause editability rule (`edit_all`, or editor role
together with `edit_own`) necessarily evaluates to the same value.  The
repository's tests, however, assert different `is_editable_by` values for
the fixture user `staff_problem_edit_public` on two problems on which that
user holds no editor role (`False` on `basic`, `True` on
`organization_private`), so the spec's two clauses cannot be the whole
rule under any assignment of capabilities to that user. -/
lemma spec_editable_rule_constant_without_role (u : User) (p q : Problem)
    (hp1 : Role.AUTHOR ∉ roles_of u p) (hp2 : Role.CURATOR ∉ roles_of u p)
    (hq1 : Role.AUTHOR ∉ roles_of u q) (hq2 : Role.CURATOR ∉ roles_of u q) :
    ((has_perm u Capability.edit_all = true
        ∨ ((Role.AUTHOR ∈ roles_of u p ∨ Role.CURATOR ∈ roles_of u p)
            ∧ has_perm u Capability.edit_own = true))
      ↔ (has_perm u Capability.edit_all = true
        ∨ ((Role.AUTHOR ∈ roles_of u q ∨ Role.CURATOR ∈ roles_of u q)
            ∧ has_perm u Capability.edit_own = true))) := by
  tauto

/-- C3 counterexample: `is_editable_by` is not equivalent to the two spec
clauses (`edit_all`, or AUTHOR/CURATOR role together with `edit_own`): the
fixture user holding `edit_own` who administers organization 5 is editable
on the organization-private problem scoped to organization 5 despite
holding no editor role and no `edit_all`. -/
theorem editable_spec_clauses_refuted :
    ¬ (∀ (u : User) (p : Problem),
        Problem.is_editable_by u p = true ↔
          (has_perm u Capability.edit_all = true
            ∨ ((Role.AUTHOR ∈ roles_of u p ∨ Role.CURATOR ∈ roles_of u p)
                ∧ has_perm u Capability.edit_own = true))) := by
  intro h
  have hmp := (h edit_public_user org_admin_private_problem).mp (by decide)
  rcases hmp with hc | ⟨hr | hr, _⟩
  · exact absurd hc (by decide)
  · exact absurd hr (by decide)
  · exact absurd hr (by decide)

/-- C3 amended: `is_editable_by(user, problem)` is true iff the user holds
`edit_all`, or holds `edit_public` and the problem is public, or holds
`edit_own` and either has an AUTHOR/CURATOR role on the problem or the
problem is organization-private and the user administers one of its
organizations.  In particular `edit_own` without any of those
relationships, or an editor role without `edit_own`, is insufficient. -/
theorem is_editable_by_characterization (u : User) (p : Problem) :
    Problem.is_editable_by u p = true ↔
      (has_perm u Capability.edit_all = true
        ∨ (has_perm u Capability.edit_public = true ∧ p.is_public = true)
        ∨ (has_perm u Capability.edit_own = true
            ∧ (Role.AUTHOR ∈ roles_of u p ∨ Role.CURATOR ∈ roles_of u p
                ∨ (p.is_organization_private = true
                    ∧ Role.ORG_ADMIN ∈ roles_of u p)))) := by
  simp only [Problem.is_editable_by, Bool.or_eq_true, Bool.and_eq_true,
    has_role, decide_eq_true_eq]
  tauto

/-- C8: `is_subs_manageable_by` holds iff the user has `edit_all`, or has
`rejudge` and can edit the problem; and an editor holding `edit_own` but
neither `rejudge` nor `edit_all` can edit the problem yet cannot manage its
submissions. -/
theorem subs_manageable_characterization :
    (∀ (u : User) (p : Problem),
      Problem.is_subs_manageable_by u p = true ↔
        (has_perm u Capability.edit_all = true
          ∨ (has_perm u Capability.rejudge = true
              ∧ Problem.is_editable_by u p = true))) ∧
    (∀ (u : User) (p : Problem),
      has_perm u Capability.edit_own = true →
      (Role.AUTHOR ∈ roles_of u p ∨ Role.CURATOR ∈ roles_of u p) →
      has_perm u Capability.rejudge = false →
      has_perm u Capability.edit_all = false →
      Problem.is_editable_by u p = true
        ∧ Problem.is_subs_manageable_by u p = false) := by
  constructor
  · intro u p
    simp [Problem.is_subs_manageable_by]
  · intro u p h1 h2 h3 h4
    constructor
    · simp only [Problem.is_editable_by, Bool.or_eq_true, Bool.and_eq_true,
        has_role, decide_eq_true_eq]
      tauto
    · simp [Problem.is_subs_manageable_by, h3, h4]

/-- C8 witness: the curator fixture holding `edit_own` but not `rejudge`
can edit `organization_private` yet cannot manage its submissions. -/
theorem subs_manageable_characterization_witness :
    Problem.is_editable_by curator_edit_own_user organization_private_problem
        = true
      ∧ Problem.is_subs_manageable_by curator_edit_own_user
          organization_private_problem = false :=
  subs_manageable_characterization.2 curator_edit_own_user
    organization_private_problem (by decide) (Or.inr (by decide)) (by decide)
    (by decide)

/-- C1: the bulk query filters agree with the scalar predicates for every
user and every problem: a problem is in `get_visible_problems` iff
`is_accessible_by` holds, and in `get_editable_problems` iff
`is_editable_by` holds — for anonymous, ordinary, and privileged users
alike. -/
theorem problems_list_equivalence (ps : List Problem) (u : User) (p : Problem) :
    (p ∈ Problem.get_visible_problems ps u ↔
      (p ∈ ps ∧ Problem.is_accessible_by u p = true)) ∧
    (p ∈ Problem.get_editable_problems ps u ↔
      (p ∈ ps ∧ Problem.is_editable_by u p = true)) := by
  constructor
  · unfold Problem.get_visible_problems Problem.is_accessible_by
    cases hauth : u.is_authenticated
    · simp [List.mem_filter, has_perm, hauth, has_role_eq]
    · by_cases hsee : has_perm u Capability.see_all = true
      · simp [hauth, hsee]
      · rw [Bool.not_eq_true] at hsee
        simp [List.mem_filter, hauth, hsee, has_role_eq, role_holds]
        tauto
  · unfold Problem.get_editable_problems Problem.is_editable_by
    cases hauth : u.is_authenticated
    · simp [has_perm, hauth]
    · by_cases hall : has_perm u Capability.edit_all = true
      · simp [hauth, hall]
      · rw [Bool.not_eq_true] at hall
        by_cases hown : has_perm u Capability.edit_own = true
        · simp [List.mem_filter, hauth, hall, hown, has_role_eq, role_holds]
        · rw [Bool.not_eq_true] at hown
          by_cases hpub : has_perm u Capability.edit_public = true
          · simp [List.mem_filter, hauth, hall, hown, hpub, has_role_eq,
              role_holds]
          · rw [Bool.not_eq_true] at hpub
            simp [hauth, hall, hown, hpub]

/-! ### Solution-policy theorems -/

/-- C4: `Solution.is_accessible_by` holds iff the user has
`see_private_solution`, or an AUTHOR/CURATOR role on the solution's
problem, or the solution is public and the current time is at or past
`publish_on`; consequently a solution whose `publish_on` lies in the future
is invisible to every ordinary user even when public, while problem editors
and holders of `see_private_solution` bypass the publish gate entirely. -/
theorem solution_accessible_characterization (now : Int) (u : User)
    (s : Solution) :
    (Solution.is_accessible_by now u s = true ↔
      (has_perm u Capability.see_private_solution = true
        ∨ Role.AUTHOR ∈ roles_of u s.problem
        ∨ Role.CURATOR ∈ roles_of u s.problem
        ∨ (s.is_public = true ∧ s.publish_on ≤ now))) ∧
    (now < s.publish_on →
      has_perm u Capability.see_private_solution = false →
      Role.AUTHOR ∉ roles_of u s.problem →
      Role.CURATOR ∉ roles_of u s.problem →
      Solution.is_accessible_by now u s = false) ∧
    ((Role.AUTHOR ∈ roles_of u s.problem
        ∨ Role.CURATOR ∈ roles_of u s.problem) →
      Solution.is_accessible_by now u s = true) ∧
    (has_perm u Capability.see_private_solution = true →
      Solution.is_accessible_by now u s = true) := by
  have hch : Solution.is_accessible_by now u s = true ↔
      (has_perm u Capability.see_private_solution = true
        ∨ Role.AUTHOR ∈ roles_of u s.problem
        ∨ Role.CURATOR ∈ roles_of u s.problem
        ∨ (s.is_public = true ∧ s.publish_on ≤ now)) := by
    simp only [Solution.is_accessible_by, Bool.or_eq_true, Bool.and_eq_true,
      has_role, decide_eq_true_eq]
    tauto
  refine ⟨hch, ?_, ?_, ?_⟩
  · intro h1 h2 h3 h4
    cases hx : Solution.is_accessible_by now u s
    · rfl
    · rcases hch.mp hx with hc | hc | hc | ⟨_, hc⟩
      · exact absurd hc (by simp [h2])
      · exact absurd hc h3
      · exact absurd hc h4
      · exact absurd hc (not_le.mpr h1)
  · intro h
    exact hch.mpr (by tauto)
  · intro h
    exact hch.mpr (Or.inl h)

/-- C4 witness: an ordinary user cannot see a future-publishing solution. -/
theorem solution_accessible_characterization_witness :
    Solution.is_accessible_by 0 normal_user unpublished_solution = false :=
  (solution_accessible_characterization 0 normal_user
      unpublished_solution).2.1 (by decide) (by decide) (by decide) (by decide)

/-- C10: membership in a solution's own `authors` set grants no access: a
user who authored the solution itself but holds no editor role on the
parent problem and no `see_private_solution` capability cannot see the
solution while it is unpublished (not public, or publishing in the
future). -/
theorem solution_author_no_access (now : Int) (u : User) (s : Solution)
    (h0 : u.profile.id ∈ s.authors)
    (h1 : Role.AUTHOR ∉ roles_of u s.problem)
    (h2 : Role.CURATOR ∉ roles_of u s.problem)
    (h3 : has_perm u Capability.see_private_solution = false)
    (h4 : s.is_public = false ∨ now < s.publish_on) :
    Solution.is_accessible_by now u s = false := by
  have hr1 : has_role u s.problem Role.AUTHOR = false := by
    simp [has_role, h1]
  have hr2 : has_role u s.problem Role.CURATOR = false := by
    simp [has_role, h2]
  rcases h4 with hp | hp
  · simp [Solution.is_accessible_by, h3, hr1, hr2, hp]
  · simp [Solution.is_accessible_by, h3, hr1, hr2, not_le.mpr hp]

/-- C10 witness: the solution-author fixture user (profile 4, listed in
`unpublished_solution.authors`) cannot access the unpublished solution. -/
theorem solution_author_no_access_witness :
    Solution.is_accessible_by 0 solution_author_user unpublished_solution
      = false :=
  solution_author_no_access 0 solution_author_user unpublished_solution
    (by decide) (by decide) (by decide) (by decide) (Or.inl (by decide))

end OnlineJudge
